import Mathlib

/-!
Shallow embedding of the data-contract execution engine
(`src/engine/validation_engine.py`, `src/engine/sla_enforcer.py`,
`src/engine/pipeline_generator.py`).

Datasets (pandas DataFrames) are modelled as a row count together with an
ordered association list of named columns; a cell is `Option ℚ` (with `none`
for a null/NaN cell).  Python dicts holding recognized optional keys
(`schema`, `sla`) are modelled as structures with `Option` fields.  The
`timestamp` field of the SLA result (wall-clock) is not modelled; nothing
in the verified properties depends on it.
-/

/-- A cell of a dataframe: `none` models a pandas null (NaN/None). -/
abbrev Cell := Option ℚ

/-- A pandas DataFrame: a row count (`len(df)`) and an ordered list of named
columns.  In a well-formed frame every column has `nrows` entries; the
definitions below, like pandas itself, do not rely on that for totality. -/
structure DataFrame where
  nrows : Nat
  cols : List (String × List Cell)
deriving Repr, DecidableEq

namespace DataFrame

/-- `df.columns` as a list of names. -/
def columnNames (df : DataFrame) : List String :=
  df.cols.map Prod.fst

/-- `df[name]`: look a column up by name (`none` when absent, which in the
Python source raises `KeyError`, caught by the surrounding `except`). -/
def getCol (df : DataFrame) (name : String) : Option (List Cell) :=
  df.cols.lookup name

/-- `row_count * len(df.columns)`, the `total_cells` of the completeness rule. -/
def totalCells (df : DataFrame) : Nat :=
  df.nrows * df.cols.length

/-- `df.isna().sum().sum()`: total number of null cells. -/
def nullCells (df : DataFrame) : Nat :=
  (df.cols.map (fun c => c.2.countP (·.isNone))).sum

/-- Row `i` of the frame (used by `drop_duplicates`): the tuple of the
columns' values at index `i`. -/
def row (df : DataFrame) (i : Nat) : List Cell :=
  df.cols.map (fun c => c.2.getD i none)

/-- All rows of the frame, in order. -/
def rows (df : DataFrame) : List (List Cell) :=
  (List.range df.nrows).map df.row

end DataFrame

/-- The `schema` mapping of a contract: `columns` maps a column name to a
declared type string (declared types are accepted but never checked). -/
structure Schema where
  columns : List (String × String)
deriving Repr, DecidableEq

/-- The `sla` mapping of a contract, with its three recognized keys;
`none` models the key being absent from the dict. -/
structure SLARules where
  min_rows : Option Nat := none
  max_rows : Option Nat := none
  completeness_threshold : Option ℚ := none
deriving Repr, DecidableEq

/-- Result dict of `SLAEnforcer.enforce_sla` (the wall-clock `timestamp`
entry is not modelled).  The `metrics` dict has two possible keys,
modelled as two `Option` fields. -/
structure SLAResult where
  sla_passed : Bool
  violations : List String
  metrics_row_count : Option Nat := none
  metrics_completeness : Option ℚ := none
deriving Repr, DecidableEq

/-- `f"Row count {row_count} is less than minimum {self.sla_rules['min_rows']}"` -/
def minRowsMsg (n m : Nat) : String :=
  "Row count " ++ toString n ++ " is less than minimum " ++ toString m

/-- `f"Row count {row_count} exceeds maximum {self.sla_rules['max_rows']}"` -/
def maxRowsMsg (n m : Nat) : String :=
  "Row count " ++ toString n ++ " exceeds maximum " ++ toString m

/-- Python's `f"{x:.2%}"`: the value as a percentage with two decimal
places (rounded) and a trailing percent sign. -/
def formatPercent (q : ℚ) : String :=
  let scaled : Int := round (q * 10000)
  let sign : String := if scaled < 0 then "-" else ""
  let a : Nat := scaled.natAbs
  let frac : Nat := a % 100
  let fracStr : String := (if frac < 10 then "0" else "") ++ toString frac
  sign ++ toString (a / 100) ++ "." ++ fracStr ++ "%"

/-- `f"Completeness {completeness:.2%} is below threshold {threshold:.2%}"` -/
def completenessMsg (c t : ℚ) : String :=
  "Completeness " ++ formatPercent c ++ " is below threshold " ++ formatPercent t

/-- `(total_cells - null_cells) / total_cells if total_cells > 0 else 1.0`
(the completeness ratio of `enforce_sla`). -/
def completenessOf (df : DataFrame) : ℚ :=
  if df.totalCells > 0 then
    ((df.totalCells : ℚ) - (df.nullCells : ℚ)) / (df.totalCells : ℚ)
  else 1

/-- The fresh `results` dict built at the top of `enforce_sla`. -/
def initialSlaResult : SLAResult :=
  { sla_passed := true, violations := [] }

/-- The `# Check row count SLA` block of `enforce_sla`, as an update of the
`results` accumulator: when `min_rows` is configured it records
`metrics["row_count"]` and, on violation, flips `sla_passed` and appends
the message. -/
def minRowsCheck (sla_rules : SLARules) (df : DataFrame) (r : SLAResult) : SLAResult :=
  match sla_rules.min_rows with
  | some m =>
    let r := { r with metrics_row_count := some df.nrows }
    if df.nrows < m then
      { r with sla_passed := false,
               violations := r.violations ++ [minRowsMsg df.nrows m] }
    else r
  | none => r

/-- The `# Check max rows SLA` block of `enforce_sla`. -/
def maxRowsCheck (sla_rules : SLARules) (df : DataFrame) (r : SLAResult) : SLAResult :=
  match sla_rules.max_rows with
  | some m =>
    if df.nrows > m then
      { r with sla_passed := false,
               violations := r.violations ++ [maxRowsMsg df.nrows m] }
    else r
  | none => r

/-- The `# Check completeness SLA` block of `enforce_sla`: when the
threshold is configured it records `metrics["completeness"]` and, on
violation, flips `sla_passed` and appends the message. -/
def completenessCheck (sla_rules : SLARules) (df : DataFrame) (r : SLAResult) : SLAResult :=
  match sla_rules.completeness_threshold with
  | some threshold =>
    let completeness := completenessOf df
    let r := { r with metrics_completeness := some completeness }
    if completeness < threshold then
      { r with sla_passed := false,
               violations := r.violations ++ [completenessMsg completeness threshold] }
    else r
  | none => r

/-- `SLAEnforcer.enforce_sla`: the three rule blocks applied in source
order to the fresh `results` dict.  All operations of the body are total
on this model, so the `except` branch of the source is unreachable. -/
def enforce_sla (sla_rules : SLARules) (df : DataFrame) : SLAResult :=
  completenessCheck sla_rules df
    (maxRowsCheck sla_rules df
      (minRowsCheck sla_rules df initialSlaResult))

/-- The successive states of the `results` accumulator during one
`enforce_sla` call: fresh dict, then after each of the three rule blocks. -/
def enforceSlaTrace (sla_rules : SLARules) (df : DataFrame) : List SLAResult :=
  List.scanl (fun r step => step r) initialSlaResult
    [minRowsCheck sla_rules df, maxRowsCheck sla_rules df, completenessCheck sla_rules df]

/-- The `min_rows` rule evaluated on its own: the violation messages it
contributes. -/
def minRowsViolations (sla_rules : SLARules) (df : DataFrame) : List String :=
  match sla_rules.min_rows with
  | some m => if df.nrows < m then [minRowsMsg df.nrows m] else []
  | none => []

/-- The `max_rows` rule evaluated on its own. -/
def maxRowsViolations (sla_rules : SLARules) (df : DataFrame) : List String :=
  match sla_rules.max_rows with
  | some m => if df.nrows > m then [maxRowsMsg df.nrows m] else []
  | none => []

/-- The completeness rule evaluated on its own. -/
def completenessViolations (sla_rules : SLARules) (df : DataFrame) : List String :=
  match sla_rules.completeness_threshold with
  | some threshold =>
    if completenessOf df < threshold then [completenessMsg (completenessOf df) threshold] else []
  | none => []

/-- The `SLAEnforcer` object: its constructor stores the rules and
initializes the instance field `metrics` to the empty dict. -/
structure SLAEnforcer where
  sla_rules : SLARules
  metrics : List (String × ℚ)
deriving Repr, DecidableEq

namespace SLAEnforcer

/-- `SLAEnforcer.__init__`. -/
def init (sla_rules : SLARules) : SLAEnforcer :=
  { sla_rules := sla_rules, metrics := [] }

/-- The `enforce_sla` method as a state transformer: it computes its result
from `self.sla_rules` and the dataframe and performs no assignment to any
instance field, so the post-state is `self` unchanged. -/
def enforceSla (self : SLAEnforcer) (df : DataFrame) : SLAResult × SLAEnforcer :=
  (enforce_sla self.sla_rules df, self)

/-- `SLAEnforcer.get_metrics`. -/
def get_metrics (self : SLAEnforcer) : List (String × ℚ) :=
  self.metrics

/-- The enforcer state after a sequence of `enforce_sla` calls on a freshly
constructed enforcer. -/
def afterCalls (sla_rules : SLARules) (dfs : List DataFrame) : SLAEnforcer :=
  dfs.foldl (fun s df => (s.enforceSla df).2) (init sla_rules)

end SLAEnforcer

/-! ## `ValidationEngine` (`src/engine/validation_engine.py`) -/

/-- `ValidationEngine.validate_schema`: every column name declared in
`schema.columns` must be present in the dataframe.  The lookups are total
here, so the `except` branch of the source is unreachable. -/
def validate_schema (schema : Schema) (df : DataFrame) : Bool :=
  schema.columns.all (fun c => df.columnNames.contains c.1)

/-- Result dict of `ValidationEngine.validate_data_quality`. -/
structure QualityResults where
  total_rows : Nat
  null_counts : List (String × Nat)
  duplicate_rows : Nat
  validation_passed : Bool
deriving Repr, DecidableEq

/-- `ValidationEngine.validate_data_quality`: per-column null counts and the
count of duplicate rows (`len(df) - len(df.drop_duplicates())`, two rows
being duplicates when all their cells agree, nulls comparing equal).  The
body is total on this model, so `validation_passed` is always `true`. -/
def validate_data_quality (df : DataFrame) : QualityResults :=
  { total_rows := df.nrows
    null_counts := df.cols.map (fun c => (c.1, c.2.countP (·.isNone)))
    duplicate_rows := df.nrows - df.rows.dedup.length
    validation_passed := true }

/-- One entry of the `constraints` list passed to `validate_constraints`:
each field is read with `dict.get`, hence optional. -/
structure Constraint where
  ctype : Option String := none
  column : Option String := none
  value : Option ℚ := none
deriving Repr, DecidableEq

/-- `df[column]` where `column` came from `constraint.get("column")`:
a missing key (`none`) or an absent column raises `KeyError` in the source,
which the surrounding `except` turns into an overall `False`; here that
shows up as `none`. -/
def getColOpt (df : DataFrame) : Option String → Option (List Cell)
  | some name => df.getCol name
  | none => none

/-- `pd.Series.min()`: minimum over the non-null cells, `none` (NaN) when
there are none.  A NaN result makes every `<` comparison `False`. -/
def seriesMin (xs : List Cell) : Option ℚ :=
  (xs.filterMap id).min?

/-- `pd.Series.max()`, analogously. -/
def seriesMax (xs : List Cell) : Option ℚ :=
  (xs.filterMap id).max?

/-- `ValidationEngine.validate_constraints`: walks the list, returning
`false` on the first violated constraint and skipping entries whose `type`
is not one of the three recognized strings.  Paths where the source raises
(missing column → `KeyError`, missing `value` compared against a number →
`TypeError`) are caught by its `except` and produce `false`; a NaN
column minimum/maximum compares `False` against any number, so such a
constraint passes. -/
def validate_constraints (df : DataFrame) : List Constraint → Bool
  | [] => true
  | c :: rest =>
    if c.ctype = some "not_null" then
      match getColOpt df c.column with
      | none => false
      | some xs =>
        if xs.countP (·.isNone) > 0 then false
        else validate_constraints df rest
    else if c.ctype = some "min_value" then
      match getColOpt df c.column with
      | none => false
      | some xs =>
        match seriesMin xs, c.value with
        | some mv, some v => if mv < v then false else validate_constraints df rest
        | none, some _ => validate_constraints df rest
        | _, none => false
    else if c.ctype = some "max_value" then
      match getColOpt df c.column with
      | none => false
      | some xs =>
        match seriesMax xs, c.value with
        | some mv, some v => if mv > v then false else validate_constraints df rest
        | none, some _ => validate_constraints df rest
        | _, none => false
    else validate_constraints df rest

/-! ## `PipelineGenerator` (`src/engine/pipeline_generator.py`) -/

/-- The `details` entry of a pipeline step: a string for the schema step,
the quality dict for the quality step, the SLA dict for the SLA step. -/
inductive StepDetails where
  | text (s : String)
  | quality (q : QualityResults)
  | sla (r : SLAResult)
deriving Repr, DecidableEq

/-- One entry of the report's `steps` list. -/
structure Step where
  name : String
  status : String
  details : StepDetails
deriving Repr, DecidableEq

/-- The `pipeline_results` dict built by `PipelineGenerator.generate`. -/
structure PipelineReport where
  input_rows : Nat
  steps : List Step
  success : Bool
deriving Repr, DecidableEq

/-- `PipelineGenerator.generate`, for a generator constructed from a
contract with schema `schema` and SLA rules `sla` (the constructor just
stores these in the two engines).  Schema validation runs first and
returns immediately on failure; otherwise the quality and SLA steps are
appended and the SLA outcome decides `success`. -/
def generate (schema : Schema) (sla : SLARules) (df : DataFrame) : PipelineReport :=
  let schema_valid := validate_schema schema df
  let step1 : Step :=
    { name := "schema_validation"
      status := if schema_valid then "passed" else "failed"
      details := .text ("Schema validation " ++ if schema_valid then "passed" else "failed") }
  if schema_valid then
    let quality_results := validate_data_quality df
    let step2 : Step :=
      { name := "data_quality", status := "completed", details := .quality quality_results }
    let sla_results := enforce_sla sla df
    let step3 : Step :=
      { name := "sla_enforcement"
        status := if sla_results.sla_passed then "passed" else "failed"
        details := .sla sla_results }
    { input_rows := df.nrows
      steps := [step1, step2, step3]
      success := sla_results.sla_passed }
  else
    { input_rows := df.nrows, steps := [step1], success := false }

/-- The successive states of the `pipeline_results` dict during one
`generate` call: the initial dict (`success=True`), the state after each
`steps.append`, and the state after each `success=False` assignment. -/
def generateTrace (schema : Schema) (sla : SLARules) (df : DataFrame) : List PipelineReport :=
  let s0 : PipelineReport := { input_rows := df.nrows, steps := [], success := true }
  let schema_valid := validate_schema schema df
  let step1 : Step :=
    { name := "schema_validation"
      status := if schema_valid then "passed" else "failed"
      details := .text ("Schema validation " ++ if schema_valid then "passed" else "failed") }
  let s1 : PipelineReport := { s0 with steps := s0.steps ++ [step1] }
  if schema_valid then
    let quality_results := validate_data_quality df
    let step2 : Step :=
      { name := "data_quality", status := "completed", details := .quality quality_results }
    let s2 : PipelineReport := { s1 with steps := s1.steps ++ [step2] }
    let sla_results := enforce_sla sla df
    let step3 : Step :=
      { name := "sla_enforcement"
        status := if sla_results.sla_passed then "passed" else "failed"
        details := .sla sla_results }
    let s3 : PipelineReport := { s2 with steps := s2.steps ++ [step3] }
    if sla_results.sla_passed then [s0, s1, s2, s3]
    else [s0, s1, s2, s3, { s3 with success := false }]
  else
    [s0, s1, { s1 with success := false }]

/-! ## Helper lemmas about the SLA rule blocks -/

theorem minRowsCheck_violations (sla_rules : SLARules) (df : DataFrame) (r : SLAResult) :
    (minRowsCheck sla_rules df r).violations = r.violations ++ minRowsViolations sla_rules df := by
  unfold minRowsCheck minRowsViolations
  cases sla_rules.min_rows with
  | none => simp
  | some m => by_cases h : df.nrows < m <;> simp [h]

theorem maxRowsCheck_violations (sla_rules : SLARules) (df : DataFrame) (r : SLAResult) :
    (maxRowsCheck sla_rules df r).violations = r.violations ++ maxRowsViolations sla_rules df := by
  unfold maxRowsCheck maxRowsViolations
  cases sla_rules.max_rows with
  | none => simp
  | some m => by_cases h : df.nrows > m <;> simp [h]

theorem completenessCheck_violations (sla_rules : SLARules) (df : DataFrame) (r : SLAResult) :
    (completenessCheck sla_rules df r).violations =
      r.violations ++ completenessViolations sla_rules df := by
  unfold completenessCheck completenessViolations
  cases sla_rules.completeness_threshold with
  | none => simp
  | some t => by_cases h : completenessOf df < t <;> simp [h]

theorem minRowsCheck_passed (sla_rules : SLARules) (df : DataFrame) (r : SLAResult) :
    (minRowsCheck sla_rules df r).sla_passed =
      (r.sla_passed && (minRowsViolations sla_rules df).isEmpty) := by
  unfold minRowsCheck minRowsViolations
  cases sla_rules.min_rows with
  | none => simp
  | some m => by_cases h : df.nrows < m <;> simp [h]

theorem maxRowsCheck_passed (sla_rules : SLARules) (df : DataFrame) (r : SLAResult) :
    (maxRowsCheck sla_rules df r).sla_passed =
      (r.sla_passed && (maxRowsViolations sla_rules df).isEmpty) := by
  unfold maxRowsCheck maxRowsViolations
  cases sla_rules.max_rows with
  | none => simp
  | some m => by_cases h : df.nrows > m <;> simp [h]

theorem completenessCheck_passed (sla_rules : SLARules) (df : DataFrame) (r : SLAResult) :
    (completenessCheck sla_rules df r).sla_passed =
      (r.sla_passed && (completenessViolations sla_rules df).isEmpty) := by
  unfold completenessCheck completenessViolations
  cases sla_rules.completeness_threshold with
  | none => simp
  | some t => by_cases h : completenessOf df < t <;> simp [h]

theorem enforce_sla_violations (sla_rules : SLARules) (df : DataFrame) :
    (enforce_sla sla_rules df).violations =
      minRowsViolations sla_rules df ++ maxRowsViolations sla_rules df ++
        completenessViolations sla_rules df := by
  unfold enforce_sla
  rw [completenessCheck_violations, maxRowsCheck_violations, minRowsCheck_violations]
  simp [initialSlaResult]

theorem enforce_sla_passed (sla_rules : SLARules) (df : DataFrame) :
    (enforce_sla sla_rules df).sla_passed =
      ((minRowsViolations sla_rules df).isEmpty && (maxRowsViolations sla_rules df).isEmpty &&
        (completenessViolations sla_rules df).isEmpty) := by
  unfold enforce_sla
  rw [completenessCheck_passed, maxRowsCheck_passed, minRowsCheck_passed]
  simp [initialSlaResult, Bool.and_assoc]

theorem minRowsCheck_row_count (sla_rules : SLARules) (df : DataFrame) (r : SLAResult) :
    (minRowsCheck sla_rules df r).metrics_row_count =
      if sla_rules.min_rows.isSome then some df.nrows else r.metrics_row_count := by
  unfold minRowsCheck
  cases sla_rules.min_rows with
  | none => simp
  | some m => by_cases h : df.nrows < m <;> simp [h]

theorem maxRowsCheck_row_count (sla_rules : SLARules) (df : DataFrame) (r : SLAResult) :
    (maxRowsCheck sla_rules df r).metrics_row_count = r.metrics_row_count := by
  unfold maxRowsCheck
  cases sla_rules.max_rows with
  | none => simp
  | some m => by_cases h : df.nrows > m <;> simp [h]

theorem completenessCheck_row_count (sla_rules : SLARules) (df : DataFrame) (r : SLAResult) :
    (completenessCheck sla_rules df r).metrics_row_count = r.metrics_row_count := by
  unfold completenessCheck
  cases sla_rules.completeness_threshold with
  | none => simp
  | some t => by_cases h : completenessOf df < t <;> simp [h]

theorem minRowsCheck_completeness_metric (sla_rules : SLARules) (df : DataFrame) (r : SLAResult) :
    (minRowsCheck sla_rules df r).metrics_completeness = r.metrics_completeness := by
  unfold minRowsCheck
  cases sla_rules.min_rows with
  | none => simp
  | some m => by_cases h : df.nrows < m <;> simp [h]

theorem maxRowsCheck_completeness_metric (sla_rules : SLARules) (df : DataFrame) (r : SLAResult) :
    (maxRowsCheck sla_rules df r).metrics_completeness = r.metrics_completeness := by
  unfold maxRowsCheck
  cases sla_rules.max_rows with
  | none => simp
  | some m => by_cases h : df.nrows > m <;> simp [h]

theorem completenessCheck_completeness_metric (sla_rules : SLARules) (df : DataFrame)
    (r : SLAResult) :
    (completenessCheck sla_rules df r).metrics_completeness =
      if sla_rules.completeness_threshold.isSome then some (completenessOf df)
      else r.metrics_completeness := by
  unfold completenessCheck
  cases sla_rules.completeness_threshold with
  | none => simp
  | some t => by_cases h : completenessOf df < t <;> simp [h]

theorem enforce_sla_row_count (sla_rules : SLARules) (df : DataFrame) :
    (enforce_sla sla_rules df).metrics_row_count =
      if sla_rules.min_rows.isSome then some df.nrows else none := by
  unfold enforce_sla
  rw [completenessCheck_row_count, maxRowsCheck_row_count, minRowsCheck_row_count]
  rfl

theorem enforce_sla_completeness_metric (sla_rules : SLARules) (df : DataFrame) :
    (enforce_sla sla_rules df).metrics_completeness =
      if sla_rules.completeness_threshold.isSome then some (completenessOf df) else none := by
  unfold enforce_sla
  rw [completenessCheck_completeness_metric, maxRowsCheck_completeness_metric,
    minRowsCheck_completeness_metric]
  rfl

/-! ## Claim theorems -/

/-- C1: if the schema check fails, the generated report has `success=false`
and its `steps` list is exactly the single failed `schema_validation`
step — no `data_quality` or `sla_enforcement` step appears, and the report
does not depend on the SLA rules at all (the SLA enforcer, like the
quality profiler, is never consulted). -/
theorem pipeline_schema_fail (schema : Schema) (sla : SLARules) (df : DataFrame)
    (h : validate_schema schema df = false) :
    (generate schema sla df).success = false ∧
    (generate schema sla df).steps =
      [{ name := "schema_validation", status := "failed",
         details := .text "Schema validation failed" }] ∧
    ∀ sla2 : SLARules, generate schema sla2 df = generate schema sla df := by
  refine ⟨?_, ?_, ?_⟩ <;> simp [generate, h]

/-- Witness for C1 at a concrete input: the contract requires column
`email`, the dataset only has `id`. -/
theorem pipeline_schema_fail_witness :
    (generate ⟨[("email", "string")]⟩ {} ⟨2, [("id", [some 1, some 2])]⟩).success = false ∧
    (generate ⟨[("email", "string")]⟩ {} ⟨2, [("id", [some 1, some 2])]⟩).steps =
      [{ name := "schema_validation", status := "failed",
         details := .text "Schema validation failed" }] := by
  have h := pipeline_schema_fail ⟨[("email", "string")]⟩ {} ⟨2, [("id", [some 1, some 2])]⟩
    (by decide)
  exact ⟨h.1, h.2.1⟩

/-- C2: if the schema check passes, the generated report's `steps` list has
exactly three entries, in order `schema_validation`, `data_quality`,
`sla_enforcement`. -/
theorem pipeline_schema_pass_steps (schema : Schema) (sla : SLARules) (df : DataFrame)
    (h : validate_schema schema df = true) :
    (generate schema sla df).steps.map Step.name =
      ["schema_validation", "data_quality", "sla_enforcement"] := by
  simp [generate, h]

/-- Witness for C2 at a concrete input: required columns `id` and `name`
are both present. -/
theorem pipeline_schema_pass_steps_witness :
    (generate ⟨[("id", "integer"), ("name", "string")]⟩ {}
        ⟨1, [("id", [some 1]), ("name", [some 2])]⟩).steps.map Step.name =
      ["schema_validation", "data_quality", "sla_enforcement"] :=
  pipeline_schema_pass_steps ⟨[("id", "integer"), ("name", "string")]⟩ {}
    ⟨1, [("id", [some 1]), ("name", [some 2])]⟩ (by decide)

/-- C6: `enforce_sla` does not short-circuit: its `violations` list is
exactly the concatenation, in source order, of the violations each
configured rule contributes when evaluated on its own — so every
configured rule among `min_rows`, `max_rows`, `completeness_threshold` is
evaluated, and every violated rule contributes its own message (in
particular, when both the row-count bound and the completeness threshold
are violated, both messages are present). -/
theorem sla_no_short_circuit (sla_rules : SLARules) (df : DataFrame) :
    (enforce_sla sla_rules df).violations =
      minRowsViolations sla_rules df ++ maxRowsViolations sla_rules df ++
        completenessViolations sla_rules df :=
  enforce_sla_violations sla_rules df

/-- C7 counterexample: with only `max_rows` configured (`max_rows=5`, no
`min_rows`) and a 3-row dataset, `enforce_sla` records no `row_count`
metric, contradicting the claim that the metric is present whenever either
row-count bound is configured. -/
theorem sla_max_only_row_count_missing :
    ({ max_rows := some 5 } : SLARules).max_rows.isSome = true ∧
    (enforce_sla { max_rows := some 5 } ⟨3, [("id", [some 1, some 2, some 3])]⟩).metrics_row_count
      = none := by
  constructor
  · rfl
  · rw [enforce_sla_row_count]
    rfl

/-- C7 (amended): the `row_count` metric of an `enforce_sla` result is
present — and equal to the dataset's row count — exactly when `min_rows`
is configured; when only `max_rows` is configured it is absent. -/
theorem sla_row_count_metric_iff_min_rows (sla_rules : SLARules) (df : DataFrame) :
    (enforce_sla sla_rules df).metrics_row_count =
      if sla_rules.min_rows.isSome then some df.nrows else none :=
  enforce_sla_row_count sla_rules df

/-- C9: `enforce_sla` performs no assignment to the instance field
`metrics` (it only fills the `metrics` entry of its returned result), so
after any sequence of `enforce_sla` calls on a freshly constructed
`SLAEnforcer`, `get_metrics` still returns the empty mapping set up by
`__init__`. -/
theorem sla_enforcer_metrics_frame (sla_rules : SLARules) (dfs : List DataFrame) :
    (SLAEnforcer.afterCalls sla_rules dfs).get_metrics = [] := by
  have h : ∀ s : SLAEnforcer,
      (dfs.foldl (fun s df => (s.enforceSla df).2) s).get_metrics = s.get_metrics := by
    induction dfs with
    | nil => intro s; rfl
    | cons d rest ih => intro s; exact ih s
  exact h (SLAEnforcer.init sla_rules)

/-- C4: for a dataset with zero total cells (zero rows or no columns) and a
configured completeness threshold, `enforce_sla` records
`metrics.completeness = 1.0` (the guarded division never divides by zero),
and for any threshold at most `1.0` it records no completeness violation:
the violations and the pass verdict are exactly those of the same rules
with the completeness rule removed. -/
theorem sla_zero_cells_completeness (sla_rules : SLARules) (df : DataFrame) (t : ℚ)
    (hc : sla_rules.completeness_threshold = some t) (ht : t ≤ 1)
    (h0 : df.totalCells = 0) :
    (enforce_sla sla_rules df).metrics_completeness = some 1 ∧
    (enforce_sla sla_rules df).violations =
      (enforce_sla { sla_rules with completeness_threshold := none } df).violations ∧
    (enforce_sla sla_rules df).sla_passed =
      (enforce_sla { sla_rules with completeness_threshold := none } df).sla_passed := by
  have hone : completenessOf df = 1 := by
    simp [completenessOf, h0]
  have hviol : completenessViolations sla_rules df = [] := by
    simp [completenessViolations, hc, hone, not_lt.mpr ht]
  have hviol2 : completenessViolations { sla_rules with completeness_threshold := none } df
      = [] := rfl
  have hmin : minRowsViolations { sla_rules with completeness_threshold := none } df
      = minRowsViolations sla_rules df := rfl
  have hmax : maxRowsViolations { sla_rules with completeness_threshold := none } df
      = maxRowsViolations sla_rules df := rfl
  refine ⟨?_, ?_, ?_⟩
  · rw [enforce_sla_completeness_metric, hc]
    simp [hone]
  · rw [enforce_sla_violations, enforce_sla_violations, hviol, hviol2, hmin, hmax]
  · rw [enforce_sla_passed, enforce_sla_passed, hviol, hviol2, hmin, hmax]

/-- Witness for C4 at a concrete input: threshold `0.95`, a dataset with a
column but zero rows. -/
theorem sla_zero_cells_completeness_witness :
    (enforce_sla { completeness_threshold := some (95 / 100) }
        ⟨0, [("id", [])]⟩).metrics_completeness = some 1 ∧
    (enforce_sla { completeness_threshold := some (95 / 100) } ⟨0, [("id", [])]⟩).violations =
      (enforce_sla {} ⟨0, [("id", [])]⟩).violations ∧
    (enforce_sla { completeness_threshold := some (95 / 100) } ⟨0, [("id", [])]⟩).sla_passed =
      (enforce_sla {} ⟨0, [("id", [])]⟩).sla_passed :=
  sla_zero_cells_completeness { completeness_threshold := some (95 / 100) } ⟨0, [("id", [])]⟩
    (95 / 100) rfl (by norm_num) rfl

/-- C5: with `min_rows = m` configured, a dataset of `n < m` rows yields
`sla_passed = false` and the violation message
`"Row count {n} is less than minimum {m}"`; with `n ≥ m`, the min-rows
rule contributes nothing — violations and verdict are exactly those of the
same rules with `min_rows` removed. -/
theorem sla_min_rows_rule (sla_rules : SLARules) (df : DataFrame) (m : Nat)
    (hm : sla_rules.min_rows = some m) :
    (df.nrows < m →
      (enforce_sla sla_rules df).sla_passed = false ∧
      minRowsMsg df.nrows m ∈ (enforce_sla sla_rules df).violations) ∧
    (m ≤ df.nrows →
      (enforce_sla sla_rules df).violations =
        (enforce_sla { sla_rules with min_rows := none } df).violations ∧
      (enforce_sla sla_rules df).sla_passed =
        (enforce_sla { sla_rules with min_rows := none } df).sla_passed) := by
  constructor
  · intro hlt
    have hv : minRowsViolations sla_rules df = [minRowsMsg df.nrows m] := by
      simp [minRowsViolations, hm, hlt]
    constructor
    · rw [enforce_sla_passed, hv]
      rfl
    · rw [enforce_sla_violations, hv]
      simp
  · intro hge
    have hv : minRowsViolations sla_rules df = [] := by
      simp [minRowsViolations, hm, not_lt.mpr hge]
    have hv2 : minRowsViolations { sla_rules with min_rows := none } df = [] := rfl
    have hmax : maxRowsViolations { sla_rules with min_rows := none } df
        = maxRowsViolations sla_rules df := rfl
    have hcomp : completenessViolations { sla_rules with min_rows := none } df
        = completenessViolations sla_rules df := rfl
    constructor
    · rw [enforce_sla_violations, enforce_sla_violations, hv, hv2, hmax, hcomp]
    · rw [enforce_sla_passed, enforce_sla_passed, hv, hv2, hmax, hcomp]

/-- Witness for C5 at the spec's Scenario 3 input: `min_rows = 100`, a
2-row dataset. -/
theorem sla_min_rows_rule_witness :
    (enforce_sla { min_rows := some 100 } ⟨2, [("id", [some 1, some 2])]⟩).sla_passed = false ∧
    minRowsMsg 2 100 ∈
      (enforce_sla { min_rows := some 100 } ⟨2, [("id", [some 1, some 2])]⟩).violations :=
  (sla_min_rows_rule { min_rows := some 100 } ⟨2, [("id", [some 1, some 2])]⟩ 100 rfl).1
    (by decide)

/-- C8: constraint bounds are non-strict.  For a single `min_value`
constraint, `validate_constraints` returns `true` when the column's
minimum equals the constraint value and `false` when it is strictly less;
symmetrically for `max_value` with the column's maximum. -/
theorem constraint_bounds_non_strict (df : DataFrame) (col : String) (xs : List Cell) (v : ℚ)
    (hcol : df.getCol col = some xs) :
    (seriesMin xs = some v →
      validate_constraints df
        [{ ctype := some "min_value", column := some col, value := some v }] = true) ∧
    (∀ w, seriesMin xs = some w → w < v →
      validate_constraints df
        [{ ctype := some "min_value", column := some col, value := some v }] = false) ∧
    (seriesMax xs = some v →
      validate_constraints df
        [{ ctype := some "max_value", column := some col, value := some v }] = true) ∧
    (∀ w, seriesMax xs = some w → v < w →
      validate_constraints df
        [{ ctype := some "max_value", column := some col, value := some v }] = false) := by
  refine ⟨?_, ?_, ?_, ?_⟩
  · intro hmin
    simp [validate_constraints, getColOpt, hcol, hmin, lt_irrefl]
  · intro w hmin hlt
    simp [validate_constraints, getColOpt, hcol, hmin, hlt]
  · intro hmax
    simp [validate_constraints, getColOpt, hcol, hmax, lt_irrefl]
  · intro w hmax hgt
    simp [validate_constraints, getColOpt, hcol, hmax, hgt]

/-- Witness for C8 at concrete inputs: the column `x = [1, 2, 3]` passes
`min_value 1` (boundary) and fails `min_value 2`, via both parts of the
theorem. -/
theorem constraint_bounds_non_strict_witness :
    validate_constraints ⟨3, [("x", [some 1, some 2, some 3])]⟩
      [{ ctype := some "min_value", column := some "x", value := some 1 }] = true ∧
    validate_constraints ⟨3, [("x", [some 1, some 2, some 3])]⟩
      [{ ctype := some "min_value", column := some "x", value := some 2 }] = false := by
  constructor
  · exact (constraint_bounds_non_strict ⟨3, [("x", [some 1, some 2, some 3])]⟩ "x"
      [some 1, some 2, some 3] 1 rfl).1 (by decide)
  · exact ((constraint_bounds_non_strict ⟨3, [("x", [some 1, some 2, some 3])]⟩ "x"
      [some 1, some 2, some 3] 2 rfl).2.1) 1 (by decide) (by norm_num)

/-- C10: constraints whose `type` is not one of `not_null`, `min_value`,
`max_value` (including a missing `type`) are silently skipped: a list of
only unrecognized constraints always validates `true`, for any dataset. -/
theorem unrecognized_constraints_skipped (df : DataFrame) (cs : List Constraint)
    (h : ∀ c ∈ cs, c.ctype ≠ some "not_null" ∧ c.ctype ≠ some "min_value" ∧
      c.ctype ≠ some "max_value") :
    validate_constraints df cs = true := by
  induction cs with
  | nil => rfl
  | cons c rest ih =>
    obtain ⟨h1, h2, h3⟩ := h c (List.mem_cons_self c rest)
    simp only [validate_constraints]
    rw [if_neg h1, if_neg h2, if_neg h3]
    exact ih (fun x hx => h x (List.mem_cons_of_mem _ hx))

/-- Witness for C10 at a concrete input: a `unique` constraint and a
typeless constraint on an empty dataset. -/
theorem unrecognized_constraints_skipped_witness :
    validate_constraints ⟨0, []⟩
      [{ ctype := some "unique", column := some "x" },
       { ctype := none, column := none, value := none }] = true :=
  unrecognized_constraints_skipped ⟨0, []⟩
    [{ ctype := some "unique", column := some "x" },
     { ctype := none, column := none, value := none }] (by decide)

/-- C3: monotonic failure.  Along the successive states of the
`pipeline_results` dict during one `generate` run, `success` starts `true`
and, once `false`, never returns to `true` at any later state (and the
final state is the returned report); likewise along the states of the
`results` dict during one `enforce_sla` call, `sla_passed` starts `true`
and once `false` stays `false`. -/
theorem monotone_failure (schema : Schema) (sla : SLARules) (df : DataFrame) :
    (generateTrace schema sla df).head?.map PipelineReport.success = some true ∧
    List.Pairwise (fun a b => a.success = false → b.success = false)
      (generateTrace schema sla df) ∧
    (generateTrace schema sla df).getLast? = some (generate schema sla df) ∧
    (enforceSlaTrace sla df).head?.map SLAResult.sla_passed = some true ∧
    List.Pairwise (fun a b => a.sla_passed = false → b.sla_passed = false)
      (enforceSlaTrace sla df) ∧
    (enforceSlaTrace sla df).getLast? = some (enforce_sla sla df) := by
  have hmaxp : ∀ r : SLAResult, r.sla_passed = false →
      (maxRowsCheck sla df r).sla_passed = false := by
    intro r h
    rw [maxRowsCheck_passed, h]
    exact Bool.false_and _
  have hcomplp : ∀ r : SLAResult, r.sla_passed = false →
      (completenessCheck sla df r).sla_passed = false := by
    intro r h
    rw [completenessCheck_passed, h]
    exact Bool.false_and _
  have htr : enforceSlaTrace sla df =
      [initialSlaResult,
       minRowsCheck sla df initialSlaResult,
       maxRowsCheck sla df (minRowsCheck sla df initialSlaResult),
       completenessCheck sla df
         (maxRowsCheck sla df (minRowsCheck sla df initialSlaResult))] := rfl
  refine ⟨?_, ?_, ?_, rfl, ?_, rfl⟩
  · by_cases hs : validate_schema schema df = true <;>
      by_cases hp : (enforce_sla sla df).sla_passed = true <;>
      simp [generateTrace, hs, hp]
  · by_cases hs : validate_schema schema df = true <;>
      by_cases hp : (enforce_sla sla df).sla_passed = true <;>
      simp [generateTrace, hs, hp, List.pairwise_cons]
  · by_cases hs : validate_schema schema df = true <;>
      by_cases hp : (enforce_sla sla df).sla_passed = true <;>
      simp [generateTrace, generate, hs, hp]
  · rw [htr]
    refine List.Pairwise.cons ?_ (List.Pairwise.cons ?_ (List.Pairwise.cons ?_ ?_))
    · intro b _ h
      exact absurd h (by simp [initialSlaResult])
    · intro b hb h
      rcases List.mem_cons.mp hb with rfl | hb
      · exact hmaxp _ h
      · rcases List.mem_cons.mp hb with rfl | hb
        · exact hcomplp _ (hmaxp _ h)
        · exact absurd hb (List.not_mem_nil _)
    · intro b hb h
      rcases List.mem_cons.mp hb with rfl | hb
      · exact hcomplp _ h
      · exact absurd hb (List.not_mem_nil _)
    · simp
